import Mathlib

/-!
Verification development for the external-tool wrapper module
(`src/obfuscapk/tool.py`) of the Obfuscapk repository.

The module wraps three external command-line programs behind three classes:
`Apktool` (decode / build), `Jarsigner` (sign / resign) and `Zipalign`
(align).  Each operation validates filesystem preconditions, constructs a
command-line invocation, and executes it as a child process; `resign`
additionally performs one piece of file surgery (stripping the old
signature entries from a zip archive before signing).

Modelling conventions:
* Filesystem queries (`os.path.isfile`, `os.path.isdir`) are modelled as
  boolean-valued fields of an abstract filesystem record; the mutable
  single-file state used by `resign` is a `DiskFile`; the mutable
  multi-file state used by `align` is an association list from paths to
  byte contents.
* Operations return `Except PyError v`, where `v` on success is the
  constructed child-process invocation (for `decode`, `build`, `sign`) or
  the tool output text (for `align`).  An `Except.error` return means the
  operation raised before any child process was launched; the errors mirror
  the Python exception classes raised by the source.
* Path arithmetic (`os.path.dirname`, `os.path.basename`,
  `os.path.splitext`, `os.path.join`) is modelled faithfully after the
  CPython `posixpath` implementations, since the source relies on their
  exact behaviour.
* Bytes are modelled as `List Nat`.
-/

set_option linter.unusedVariables false

deriving instance DecidableEq for Except

/-- Error values mirroring the Python exception classes that the source
raises or propagates: `FileNotFoundError`, `NotADirectoryError`,
`FileExistsError`, `zipfile.BadZipFile`, `shutil.SameFileError`,
`subprocess.CalledProcessError`, and a generic `OSError` for injected
input/output faults. -/
inductive PyError where
  | fileNotFound (path : String)
  | notADirectory (path : String)
  | fileExists (path : String)
  | badZipFile
  | sameFile
  | calledProcessError
  | ioError
deriving DecidableEq, Repr

/-! ### Path arithmetic, after CPython `posixpath` -/

/-- Character-list prefix test: second list is a prefix of the first. -/
def listStartsWith : List Char → List Char → Bool
  | _, [] => true
  | [], _ => false
  | a :: s, b :: p => a == b && listStartsWith s p

/-- Model of Python `str.startswith`: an exact, case-sensitive prefix
test. -/
def strStartsWith (s p : String) : Bool := listStartsWith s.toList p.toList

/-- Model of Python `str.endswith`. -/
def strEndsWith (s p : String) : Bool :=
  listStartsWith s.toList.reverse p.toList.reverse

/-- Index of the last occurrence of a character in a character list
(Python `str.rfind`, returning `none` instead of `-1`). -/
def lastIdxOf (c : Char) : List Char → Option Nat
  | [] => none
  | a :: t =>
    match lastIdxOf c t with
    | some j => some (j + 1)
    | none => if a == c then some 0 else none

/-- Split a character list at the last path separator: the first component
is `p[:p.rfind(sep)+1]` (ending in the separator, or empty), the second is
`p[p.rfind(sep)+1:]`. -/
def lastSplit (s : List Char) : List Char × List Char :=
  let sp := s.reverse.span (fun ch => ch != '/')
  (sp.2.reverse, sp.1.reverse)

/-- Model of `posixpath.dirname`: everything up to the last separator,
with trailing separators stripped unless the head consists only of
separators. -/
def pyDirname (p : String) : String :=
  let head := (lastSplit p.toList).1
  if !head.isEmpty && head.any (fun ch => ch != '/') then
    ((head.reverse.dropWhile (fun ch => ch == '/')).reverse).asString
  else head.asString

/-- Model of `posixpath.basename`: everything after the last separator. -/
def pyBasename (p : String) : String := (lastSplit p.toList).2.asString

/-- Model of `posixpath.splitext(p)[0]`: drop the extension starting at the
last dot, provided that dot lies after the last separator and the base name
does not consist solely of leading dots up to it. -/
def pySplitextRoot (p : String) : String :=
  let s := p.toList
  match lastIdxOf '.' s with
  | none => p
  | some d =>
    let start := match lastIdxOf '/' s with
      | none => 0
      | some i => i + 1
    let dotAfterSep := match lastIdxOf '/' s with
      | none => true
      | some i => decide (i < d)
    if dotAfterSep && ((s.drop start).take (d - start)).any (fun ch => ch != '.') then
      (s.take d).asString
    else p

/-- Model of the two-argument `posixpath.join`. -/
def pyJoin (a b : String) : String :=
  if strStartsWith b "/" then b
  else if a == "" || strEndsWith a "/" then a ++ b
  else a ++ "/" ++ b

/-- Python `list.insert(i, x)`: insert before position `i`, clamping to the
end of the list. -/
def pyInsert {α : Type} (i : Nat) (x : α) (xs : List α) : List α :=
  xs.take i ++ [x] ++ xs.drop i

/-- Python truthiness of an optional string argument (`if not s:` is taken
when the argument is `None` or the empty string). -/
def pyStrOptTruthy : Option String → Bool
  | none => false
  | some s => s != ""

/-! ### Apktool -/

/-- Abstract read-only filesystem: the results of `os.path.isfile` and
`os.path.isdir` on each path. -/
structure PathFS where
  isfile : String → Bool
  isdir : String → Bool

/-- The default output directory `decode` derives when no output directory
argument is given: `os.path.join(os.path.dirname(apk_path),
os.path.splitext(os.path.basename(apk_path))[0])` (source lines 32-33). -/
def defaultDecodeOutputDir (apkPath : String) : String :=
  pyJoin (pyDirname apkPath) (pySplitextRoot (pyBasename apkPath))

/-- Model of `Apktool.decode` (source lines 22-68) up to the launch of the
child process: validates the input file, resolves the output directory,
applies the parent-directory and already-exists checks, and on success
returns the `decode_cmd` invocation that would be executed. -/
def Apktool.decode (fs : PathFS) (apktoolPath apkPath : String)
    (outputDirPath : Option String) (force : Bool) : Except PyError (List String) :=
  if !fs.isfile apkPath then Except.error (PyError.fileNotFound apkPath)
  else
    let resolve : Except PyError String :=
      if !pyStrOptTruthy outputDirPath then
        Except.ok (defaultDecodeOutputDir apkPath)
      else if !fs.isdir (pyDirname (outputDirPath.getD "")) then
        Except.error (PyError.notADirectory (pyDirname (outputDirPath.getD "")))
      else Except.ok (outputDirPath.getD "")
    match resolve with
    | Except.error e => Except.error e
    | Except.ok outputDir =>
      if fs.isdir outputDir && !force then Except.error (PyError.fileExists outputDir)
      else
        let decodeCmd := [apktoolPath, "d", apkPath, "-o", outputDir]
        Except.ok (if force then pyInsert 2 "--force" decodeCmd else decodeCmd)

/-- Model of `Apktool.build` (source lines 70-100) up to the launch of the
child process. -/
def Apktool.build (fs : PathFS) (apktoolPath sourceDirPath : String)
    (outputApkPath : Option String) : Except PyError (List String) :=
  if !fs.isdir sourceDirPath then Except.error (PyError.notADirectory sourceDirPath)
  else
    let buildCmd := [apktoolPath, "b", "--force-all", sourceDirPath]
    Except.ok (if pyStrOptTruthy outputApkPath then
      buildCmd ++ ["-o", outputApkPath.getD ""] else buildCmd)

/-! ### Jarsigner -/

/-- The metadata fields of a `zipfile.ZipInfo` header that `writestr`
carries over unchanged when it is handed an existing `ZipInfo` object. -/
structure ZipMeta where
  date_time : Nat
  compress_type : Nat
  create_system : Nat
deriving DecidableEq, Repr

/-- One entry of a zip archive: its header (name plus preserved metadata)
and its uncompressed content. -/
structure ZipEntry where
  filename : String
  meta : ZipMeta
  content : List Nat
deriving DecidableEq, Repr

/-- The signed-archive test of `resign` (source line 150):
`any(entry.filename.startswith('META-INF/') for entry in infolist())`. -/
def isSigned (es : List ZipEntry) : Bool :=
  es.any (fun e => strStartsWith e.filename "META-INF/")

/-- Model of `ZipFile.read(name)`: `zipfile` resolves a name through its
`NameToInfo` dictionary, which is populated in central-directory order so
that the last entry bearing a name wins.  The `[]` fallback is unreachable
in `resign`, which only reads names taken from `infolist()`. -/
def nameToInfoContent (es : List ZipEntry) (name : String) : List Nat :=
  match (es.filter (fun e => e.filename == name)).getLast? with
  | some e => e.content
  | none => []

/-- The in-memory archive `resign` builds (source lines 155-158): every
entry whose name does not start with `META-INF/` is written back with its
original header via `writestr(entry, current_apk.read(entry.filename))`. -/
def stripSignature (es : List ZipEntry) : List ZipEntry :=
  (es.filter (fun e => !(strStartsWith e.filename "META-INF/"))).map
    (fun e => { e with content := nameToInfoContent es e.filename })

/-- Abstract serialization of a zip archive to bytes, standing in for the
zip container format (which is produced by the external `zipfile` library,
not by this repository).  Entries are emitted in order followed by an
end-of-archive marker, so any archive serializes to a nonempty byte
string. -/
def serializeEntry (e : ZipEntry) : List Nat :=
  (e.filename.toList.map Char.toNat) ++ [0] ++ e.content

/-- Serialization of a whole archive; see `serializeEntry`. -/
def serializeZip (es : List ZipEntry) : List Nat :=
  es.foldr (fun e acc => serializeEntry e ++ acc) [80, 75, 5, 6]

/-- The content of the single on-disk file `resign` operates on: absent, a
well-formed zip archive with the given entries, or raw bytes that do not
form a well-formed archive (for example the remains of an interrupted
write). -/
inductive DiskFile where
  | absent
  | archive (es : List ZipEntry)
  | raw (bytes : List Nat)
deriving DecidableEq, Repr

/-- Fault injection for the fallible input/output steps of `resign`: the
archive open can raise, reading one entry by name can raise, and the
write-back to disk can raise after some number of bytes reached the file. -/
inductive ResignFault where
  | openArchive
  | readEntry (name : String)
  | writeBack (bytesWritten : Nat)
deriving DecidableEq, Repr

/-- Whether an injected fault fires during the read/filter phase of
`resign`: an open fault always fires; a read fault fires only if the named
entry is actually read, i.e. the archive is signed and some kept (non
`META-INF/`) entry bears that name. -/
def readPhaseFaultFires (es : List ZipEntry) : Option ResignFault → Bool
  | some ResignFault.openArchive => true
  | some (ResignFault.readEntry n) =>
    isSigned es && es.any (fun e => !(strStartsWith e.filename "META-INF/") && e.filename == n)
  | _ => false

/-- The injected write-back fault position, if any. -/
def writeFaultPos : Option ResignFault → Option Nat
  | some (ResignFault.writeBack k) => some k
  | _ => none

/-- Model of `Jarsigner.sign` (source lines 113-137) up to the launch of
the child process.  `fileExists` is the value of the
`os.path.isfile(apk_path)` precondition check; on success the result is
the `sign_cmd` invocation that would be executed. -/
def Jarsigner.sign (fileExists : Bool)
    (jarsignerPath apkPath keystoreFilePath keystorePassword keyAlias : String) :
    Except PyError (List String) :=
  if !fileExists then Except.error (PyError.fileNotFound apkPath)
  else Except.ok [jarsignerPath,
    "-tsa", "http://timestamp.comodoca.com/rfc3161",
    "-sigalg", "SHA1withRSA", "-digestalg", "SHA1",
    "-keystore", keystoreFilePath,
    "-storepass", keystorePassword,
    apkPath, keyAlias]

/-- Result of a `resign` call: the outcome (the delegated sign invocation,
or the propagated error), the content of the file afterwards, and whether
the write-back step executed. -/
structure ResignOutcome where
  result : Except PyError (List String)
  disk : DiskFile
  wrote : Bool
deriving DecidableEq, Repr

/-- Model of `Jarsigner.resign` (source lines 139-168).  Opening a missing
file raises `FileNotFoundError`; opening bytes that are not a well-formed
archive raises `BadZipFile`; both propagate out of the `try` block.  If the
archive is signed, the stripped replacement is built entirely in memory and
then written back in place over `apk_path` (Python `open(apk_path, 'wb')`
truncates before `write` runs, so a write-back fault leaves only the prefix
of the serialized bytes that reached the disk).  Afterwards `resign`
delegates to `sign` on the (now existing) file with the same arguments. -/
def Jarsigner.resign (jarsignerPath apkPath keystoreFilePath keystorePassword keyAlias : String)
    (disk : DiskFile) (fault : Option ResignFault) : ResignOutcome :=
  match disk with
  | DiskFile.absent =>
    ⟨Except.error (PyError.fileNotFound apkPath), DiskFile.absent, false⟩
  | DiskFile.raw b =>
    ⟨Except.error PyError.badZipFile, DiskFile.raw b, false⟩
  | DiskFile.archive es =>
    if readPhaseFaultFires es fault then
      ⟨Except.error PyError.ioError, DiskFile.archive es, false⟩
    else if isSigned es then
      let stripped := stripSignature es
      let bytes := serializeZip stripped
      match writeFaultPos fault with
      | some k =>
        if k < bytes.length then
          ⟨Except.error PyError.ioError, DiskFile.raw (bytes.take k), true⟩
        else
          ⟨Jarsigner.sign true jarsignerPath apkPath keystoreFilePath keystorePassword keyAlias,
           DiskFile.archive stripped, true⟩
      | none =>
        ⟨Jarsigner.sign true jarsignerPath apkPath keystoreFilePath keystorePassword keyAlias,
         DiskFile.archive stripped, true⟩
    else
      ⟨Jarsigner.sign true jarsignerPath apkPath keystoreFilePath keystorePassword keyAlias,
       DiskFile.archive es, false⟩

/-! ### Zipalign -/

/-- Mutable filesystem state for `align`: an association list from paths to
byte contents (most recent binding first). -/
structure FileSys where
  files : List (String × List Nat)
deriving DecidableEq, Repr

/-- Model of `os.path.isfile` over a `FileSys`. -/
def FileSys.isfile (fs : FileSys) (p : String) : Bool :=
  fs.files.any (fun q => q.1 == p)

/-- Content of the file at a path, if present. -/
def FileSys.readFile (fs : FileSys) (p : String) : Option (List Nat) :=
  (fs.files.find? (fun q => q.1 == p)).map (fun q => q.2)

/-- Create or overwrite the file at a path. -/
def FileSys.writeFile (fs : FileSys) (p : String) (v : List Nat) : FileSys :=
  ⟨(p, v) :: fs.files.filter (fun q => q.1 != p)⟩

/-- Model of `os.remove`. -/
def FileSys.removeFile (fs : FileSys) (p : String) : FileSys :=
  ⟨fs.files.filter (fun q => q.1 != p)⟩

/-- The temporary path `align` derives (source lines 189-190):
`'{0}.copy.apk'.format(os.path.join(os.path.dirname(apk_path),
os.path.splitext(os.path.basename(apk_path))[0]))`. -/
def alignCopyPath (apkPath : String) : String :=
  pyJoin (pyDirname apkPath) (pySplitextRoot (pyBasename apkPath)) ++ ".copy.apk"

/-- The `align_cmd` invocation (source line 195). -/
def alignCmd (zipalignPath apkCopyPath apkPath : String) : List String :=
  [zipalignPath, "-f", "4", apkCopyPath, apkPath]

/-- Outcome of the fallible part of one `align` run: the external tool
succeeds and writes the aligned bytes over the original path (returning its
output text), or it exits nonzero, or `shutil.copy2` itself faults before
creating the copy. -/
inductive AlignOutcome where
  | ok (alignedContent : List Nat) (outputText : String)
  | toolFailure
  | copyFault
deriving DecidableEq, Repr

/-- The `finally` block of `align` (source lines 207-210): remove the
temporary copy if it exists, whatever the result of the `try` body was. -/
def finallyRemoveCopy (st : Except PyError String × FileSys) (copyPath : String) :
    Except PyError String × FileSys :=
  (st.1, if st.2.isfile copyPath then st.2.removeFile copyPath else st.2)

/-- Model of `Zipalign.align` (source lines 181-210).  After the input
check, `shutil.copy2` copies the original over whatever is at the derived
copy path (raising `SameFileError` if the two paths coincide), the external
tool reads the copy and rewrites the original, and the `finally` block
removes the copy on every exit path. -/
def Zipalign.align (fs : FileSys) (zipalignPath apkPath : String) (outcome : AlignOutcome) :
    Except PyError String × FileSys :=
  if !fs.isfile apkPath then (Except.error (PyError.fileNotFound apkPath), fs)
  else
    finallyRemoveCopy
      (if alignCopyPath apkPath = apkPath then (Except.error PyError.sameFile, fs)
       else
         match outcome with
         | AlignOutcome.copyFault => (Except.error PyError.ioError, fs)
         | AlignOutcome.toolFailure =>
           (Except.error PyError.calledProcessError,
            fs.writeFile (alignCopyPath apkPath) ((fs.readFile apkPath).getD []))
         | AlignOutcome.ok c outText =>
           (Except.ok outText,
            (fs.writeFile (alignCopyPath apkPath) ((fs.readFile apkPath).getD [])).writeFile
              apkPath c))
      (alignCopyPath apkPath)

/-! ### Concrete fixtures used by counterexamples and witnesses -/

/-- Concrete filesystem for the C4 counterexample: the input file exists
and the provided output directory `out` exists, but `out` is a bare
relative name, so its parent per `os.path.dirname` is the empty string,
which `os.path.isdir` never accepts. -/
def fsC4ce : PathFS := PathFS.mk (fun p => p == "app.apk") (fun p => p == "out")

/-- Concrete filesystem for the C4 witness: the input file exists, and the
parent directory, the provided output directory and the derived default
output directory all exist. -/
def fsC4 : PathFS :=
  PathFS.mk (fun p => p == "d/app.apk")
    (fun p => p == "d" || p == "d/out" || p == "d/app")

/-- Metadata samples used by the concrete archives below. -/
def mA : ZipMeta := ZipMeta.mk 0 0 0

/-- Metadata sample. -/
def mB : ZipMeta := ZipMeta.mk 1 8 3

/-- Metadata sample. -/
def mC : ZipMeta := ZipMeta.mk 2 0 0

/-- A signed archive with two distinct entries bearing the same name. -/
def dupArchive : List ZipEntry :=
  [ZipEntry.mk "a.txt" mA [1], ZipEntry.mk "a.txt" mB [2],
   ZipEntry.mk "META-INF/CERT.SF" mC [9]]

/-- A signed archive with distinct entry names. -/
def signedArchive : List ZipEntry :=
  [ZipEntry.mk "classes.dex" mA [1, 2], ZipEntry.mk "META-INF/CERT.SF" mB [3]]

/-- An archive with no `META-INF/` entry. -/
def unsignedArchive : List ZipEntry :=
  [ZipEntry.mk "classes.dex" mA [1, 2], ZipEntry.mk "res/layout/x.xml" mB [4]]

/-- An archive whose entry names miss the exact prefix only by case or by
the missing trailing slash. -/
def nearMissArchive : List ZipEntry :=
  [ZipEntry.mk "meta-inf/x" mA [1], ZipEntry.mk "META-INF" mB [2]]

/-- Concrete filesystem with just the archive. -/
def fsC5 : FileSys := FileSys.mk [("d/a.apk", [1, 2])]

/-- Concrete filesystem with the archive and a stale file already sitting
at the derived copy path. -/
def fsC9 : FileSys := FileSys.mk [("d/a.apk", [1, 2]), ("d/a.copy.apk", [9])]

/-! ### Claim C3: fail-fast precondition checks -/

/-- C3: every operation of the three components, called with a nonexistent
required input file or directory path, fails before any child process is
launched (the model returns an error and never produces an invocation),
with the documented error kind: `FileNotFoundError` (NotFound) for the
missing input file of `decode`, `sign`, `resign` and `align`, and
`NotADirectoryError` (DirectoryMissing) for the missing source directory of
`build`. -/
theorem ops_fail_fast_on_missing_inputs
    (fs : PathFS) (ffs : FileSys)
    (t apk src j sapk ks pw al rapk z zapk : String)
    (oforce : Bool) (odp oap : Option String) (fault : Option ResignFault)
    (oc : AlignOutcome)
    (h1 : fs.isfile apk = false) (h2 : fs.isdir src = false)
    (h3 : ffs.isfile zapk = false) :
    Apktool.decode fs t apk odp oforce = Except.error (PyError.fileNotFound apk) ∧
    Apktool.build fs t src oap = Except.error (PyError.notADirectory src) ∧
    Jarsigner.sign false j sapk ks pw al = Except.error (PyError.fileNotFound sapk) ∧
    (Jarsigner.resign j rapk ks pw al DiskFile.absent fault).result =
      Except.error (PyError.fileNotFound rapk) ∧
    Zipalign.align ffs z zapk oc = (Except.error (PyError.fileNotFound zapk), ffs) := by
  refine ⟨?_, ?_, rfl, rfl, ?_⟩
  · simp [Apktool.decode, h1]
  · simp [Apktool.build, h2]
  · simp [Zipalign.align, h3]

/-- Witness for `ops_fail_fast_on_missing_inputs` at concrete inputs. -/
theorem ops_fail_fast_on_missing_inputs_witness :
    (PathFS.mk (fun _ => false) (fun _ => false)).isfile "a.apk" = false ∧
    (PathFS.mk (fun _ => false) (fun _ => false)).isdir "srcdir" = false ∧
    (FileSys.mk []).isfile "z.apk" = false ∧
    (Apktool.decode (PathFS.mk (fun _ => false) (fun _ => false)) "apktool" "a.apk" none false =
        Except.error (PyError.fileNotFound "a.apk") ∧
     Apktool.build (PathFS.mk (fun _ => false) (fun _ => false)) "apktool" "srcdir" none =
        Except.error (PyError.notADirectory "srcdir") ∧
     Jarsigner.sign false "jarsigner" "s.apk" "ks" "pw" "alias" =
        Except.error (PyError.fileNotFound "s.apk") ∧
     (Jarsigner.resign "jarsigner" "r.apk" "ks" "pw" "alias" DiskFile.absent none).result =
        Except.error (PyError.fileNotFound "r.apk") ∧
     Zipalign.align (FileSys.mk []) "zipalign" "z.apk" AlignOutcome.toolFailure =
        (Except.error (PyError.fileNotFound "z.apk"), FileSys.mk [])) :=
  ⟨rfl, rfl, rfl,
   ops_fail_fast_on_missing_inputs (PathFS.mk (fun _ => false) (fun _ => false))
     (FileSys.mk []) "apktool" "a.apk" "srcdir" "jarsigner" "s.apk" "ks" "pw" "alias"
     "r.apk" "zipalign" "z.apk" false none none none AlignOutcome.toolFailure rfl rfl rfl⟩

/-! ### Claim C4: decode overwrite protection and force flag placement -/

/-- Counterexample to C4 as stated: with an existing input file and an
existing provided output directory `out`, `decode` with `force = false`
fails with `NotADirectoryError` from the parent-directory check, not with
the claimed `FileExistsError`. -/
theorem decode_existing_outdir_counterexample :
    fsC4ce.isfile "app.apk" = true ∧
    fsC4ce.isdir "out" = true ∧
    Apktool.decode fsC4ce "apktool" "app.apk" (some "out") false =
      Except.error (PyError.notADirectory "") ∧
    Except.error (PyError.notADirectory "") ≠
      (Except.error (PyError.fileExists "out") : Except PyError (List String)) := by
  refine ⟨rfl, rfl, ?_, by decide⟩
  decide

/-- C4, amended: for an existing input file, `decode` with `force = false`
against a resolved output directory that already exists fails with
`FileExistsError`, and with `force = true` the existence check is bypassed
and the invocation is exactly `<tool> d --force <input> -o <outputDir>`,
with `--force` placed immediately after the subcommand token `d` — stated
for both ways the output directory is resolved.  For an omitted output
path the default directory is derived and the parent-directory check is
skipped, so this holds unconditionally; for a provided nonempty output
path it holds provided the parent directory of that path exists (otherwise
the parent-directory check fires first, as the counterexample shows). -/
theorem decode_force_flag_and_exists_check
    (fs : PathFS) (t apk out : String) (hf : fs.isfile apk = true) :
    ((out ≠ "" → fs.isdir (pyDirname out) = true → fs.isdir out = true →
       Apktool.decode fs t apk (some out) false =
         Except.error (PyError.fileExists out)) ∧
     (out ≠ "" → fs.isdir (pyDirname out) = true →
       Apktool.decode fs t apk (some out) true =
         Except.ok [t, "d", "--force", apk, "-o", out])) ∧
    ((fs.isdir (defaultDecodeOutputDir apk) = true →
       Apktool.decode fs t apk none false =
         Except.error (PyError.fileExists (defaultDecodeOutputDir apk))) ∧
     Apktool.decode fs t apk none true =
       Except.ok [t, "d", "--force", apk, "-o", defaultDecodeOutputDir apk]) := by
  refine ⟨⟨?_, ?_⟩, ⟨?_, ?_⟩⟩
  · intro hne hp hd
    simp [Apktool.decode, pyStrOptTruthy, hf, hp, hd, bne_iff_ne, hne]
  · intro hne hp
    simp [Apktool.decode, pyStrOptTruthy, hf, hp, bne_iff_ne, hne, pyInsert]
  · intro hd
    simp [Apktool.decode, pyStrOptTruthy, hf, hd]
  · simp [Apktool.decode, pyStrOptTruthy, hf, pyInsert]

/-- Witness for `decode_force_flag_and_exists_check` at concrete inputs. -/
theorem decode_force_flag_and_exists_check_witness :
    fsC4.isfile "d/app.apk" = true ∧
    ((("d/out" ≠ "" → fsC4.isdir (pyDirname "d/out") = true →
        fsC4.isdir "d/out" = true →
        Apktool.decode fsC4 "apktool" "d/app.apk" (some "d/out") false =
          Except.error (PyError.fileExists "d/out")) ∧
      ("d/out" ≠ "" → fsC4.isdir (pyDirname "d/out") = true →
        Apktool.decode fsC4 "apktool" "d/app.apk" (some "d/out") true =
          Except.ok ["apktool", "d", "--force", "d/app.apk", "-o", "d/out"])) ∧
     ((fsC4.isdir (defaultDecodeOutputDir "d/app.apk") = true →
        Apktool.decode fsC4 "apktool" "d/app.apk" none false =
          Except.error (PyError.fileExists (defaultDecodeOutputDir "d/app.apk"))) ∧
      Apktool.decode fsC4 "apktool" "d/app.apk" none true =
        Except.ok ["apktool", "d", "--force", "d/app.apk", "-o",
          defaultDecodeOutputDir "d/app.apk"])) :=
  ⟨rfl, decode_force_flag_and_exists_check fsC4 "apktool" "d/app.apk" "d/out" rfl⟩

/-! ### Claim C7: fixed shape of the sign invocation -/

/-- C7: for an existing archive file, `sign` constructs the invocation with
the fixed argument order: tool path, `-tsa <url>`, `-sigalg SHA1withRSA`,
`-digestalg SHA1`, `-keystore <keystorePath>`,
`-storepass <keystorePassword>`, `<archivePath>`, `<keyAlias>`. -/
theorem sign_command_fixed_shape (j p ks pw al : String) :
    Jarsigner.sign true j p ks pw al =
      Except.ok [j,
        "-tsa", "http://timestamp.comodoca.com/rfc3161",
        "-sigalg", "SHA1withRSA", "-digestalg", "SHA1",
        "-keystore", ks, "-storepass", pw, p, al] := rfl

/-! ### Claim C8: empty-string path arguments behave as omitted ones -/

/-- C8: at the public interface an empty-string path argument behaves
identically to an omitted one: `decode` with an empty output directory
derives the default output directory and skips the parent-directory check
(it equals the omitted-argument call), and `build` with an empty output
archive path appends no `-o` argument. -/
theorem empty_string_path_behaves_as_omitted
    (fs : PathFS) (t apk src : String) (force : Bool) :
    Apktool.decode fs t apk (some "") force = Apktool.decode fs t apk none force ∧
    Apktool.build fs t src (some "") = Apktool.build fs t src none ∧
    Apktool.build fs t src (some "") =
      (if fs.isdir src then Except.ok [t, "b", "--force-all", src]
       else Except.error (PyError.notADirectory src)) := by
  refine ⟨rfl, rfl, ?_⟩
  cases h : fs.isdir src <;> simp [Apktool.build, pyStrOptTruthy, h]

/-! ### Helper lemmas about the signature-strip rewrite -/

/-- If a name does not occur among the entry names of a list, filtering the
list for that name gives the empty list. -/
theorem filter_beq_nil_of_not_mem_names (t : List ZipEntry) (n : String)
    (h : n ∉ t.map (fun x => x.filename)) :
    t.filter (fun x => x.filename == n) = [] := by
  induction t with
  | nil => rfl
  | cons a s ih =>
    simp only [List.map_cons, List.mem_cons, not_or] at h
    rw [List.filter_cons_of_neg]
    · exact ih h.2
    · simp only [beq_iff_eq]
      exact fun hh => h.1 hh.symm

/-- Under pairwise-distinct entry names, filtering for the name of a member
entry isolates exactly that entry. -/
theorem filter_name_singleton (es : List ZipEntry) (e : ZipEntry)
    (hmem : e ∈ es) (hnd : (es.map (fun x => x.filename)).Nodup) :
    es.filter (fun x => x.filename == e.filename) = [e] := by
  induction es with
  | nil => cases hmem
  | cons a t ih =>
    rw [List.map_cons, List.nodup_cons] at hnd
    rcases List.mem_cons.1 hmem with h | h
    · subst h
      rw [List.filter_cons_of_pos (by simp)]
      rw [filter_beq_nil_of_not_mem_names t e.filename hnd.1]
    · have hne : a.filename ≠ e.filename := by
        intro hq
        exact hnd.1 (hq ▸ List.mem_map.2 ⟨e, h, rfl⟩)
      rw [List.filter_cons_of_neg (by simp [hne])]
      exact ih h hnd.2

/-- Under pairwise-distinct entry names, the by-name lookup used by the
rewrite returns the content of the entry itself. -/
theorem nameToInfoContent_of_nodup (es : List ZipEntry) (e : ZipEntry)
    (hmem : e ∈ es) (hnd : (es.map (fun x => x.filename)).Nodup) :
    nameToInfoContent es e.filename = e.content := by
  unfold nameToInfoContent
  rw [filter_name_singleton es e hmem hnd]
  rfl

/-- Under pairwise-distinct entry names, the stripped archive is exactly
the original entry list with the `META-INF/` entries filtered out, each
kept entry retaining its metadata and content. -/
theorem stripSignature_eq_filter_of_nodup (es : List ZipEntry)
    (hnd : (es.map (fun x => x.filename)).Nodup) :
    stripSignature es = es.filter (fun e => !(strStartsWith e.filename "META-INF/")) := by
  unfold stripSignature
  have hpt : ∀ e ∈ es.filter (fun e => !(strStartsWith e.filename "META-INF/")),
      ({ e with content := nameToInfoContent es e.filename } : ZipEntry) = e := by
    intro e he
    have hm : e ∈ es := (List.mem_filter.1 he).1
    rw [nameToInfoContent_of_nodup es e hm hnd]
  rw [List.map_congr_left hpt]
  exact List.map_id' _

/-- Common shape of a `resign` run on an unsigned archive with no injected
fault: no rewrite happens and the call delegates to `sign`. -/
theorem resign_unsigned_eq (j p ks pw al : String) (es : List ZipEntry)
    (h : isSigned es = false) :
    Jarsigner.resign j p ks pw al (DiskFile.archive es) none =
      ResignOutcome.mk (Jarsigner.sign true j p ks pw al) (DiskFile.archive es) false := by
  simp [Jarsigner.resign, readPhaseFaultFires, h]

/-! ### Claim C1: resign strips the signature entries -/

/-- C1, amended: for a zip archive with pairwise-distinct entry names and
at least one entry under `META-INF/`, `resign` overwrites the archive
before signing with a container that has zero entries under that prefix and
contains every other entry of the original with its original metadata and
content.  (With duplicate entry names the content of a kept name is the
content of the last entry bearing that name, because the rewrite reads
entries back by name.) -/
theorem resign_strips_signature (j p ks pw al : String) (es : List ZipEntry)
    (hs : isSigned es = true) (hnd : (es.map (fun e => e.filename)).Nodup) :
    (Jarsigner.resign j p ks pw al (DiskFile.archive es) none).wrote = true ∧
    (Jarsigner.resign j p ks pw al (DiskFile.archive es) none).disk =
      DiskFile.archive (es.filter (fun e => !(strStartsWith e.filename "META-INF/"))) ∧
    (∀ e ∈ es.filter (fun e => !(strStartsWith e.filename "META-INF/")),
      strStartsWith e.filename "META-INF/" = false) ∧
    (∀ e ∈ es, strStartsWith e.filename "META-INF/" = false →
      e ∈ es.filter (fun e => !(strStartsWith e.filename "META-INF/"))) := by
  have hstrip := stripSignature_eq_filter_of_nodup es hnd
  refine ⟨?_, ?_, ?_, ?_⟩
  · simp [Jarsigner.resign, readPhaseFaultFires, hs, writeFaultPos]
  · simp [Jarsigner.resign, readPhaseFaultFires, hs, writeFaultPos, hstrip]
  · intro e he
    have := (List.mem_filter.1 he).2
    simpa using this
  · intro e he h0
    exact List.mem_filter.2 ⟨he, by simp [h0]⟩

/-- Counterexample to C1 as stated: on a signed archive with two entries
named `a.txt` (contents `[1]` and `[2]`), the rewrite reads entries back by
name, so both kept entries receive the content of the last `a.txt` entry;
the non-`META-INF/` entry `⟨a.txt, mA, [1]⟩` of the original is present in
no form that preserves both its metadata and its content. -/
theorem resign_strip_duplicate_name_counterexample :
    isSigned dupArchive = true ∧
    (Jarsigner.resign "jarsigner" "app.apk" "ks" "pw" "alias"
        (DiskFile.archive dupArchive) none).disk =
      DiskFile.archive [ZipEntry.mk "a.txt" mA [2], ZipEntry.mk "a.txt" mB [2]] ∧
    ZipEntry.mk "a.txt" mA [1] ∈ dupArchive ∧
    strStartsWith "a.txt" "META-INF/" = false ∧
    ZipEntry.mk "a.txt" mA [1] ∉
      [ZipEntry.mk "a.txt" mA [2], ZipEntry.mk "a.txt" mB [2]] := by
  refine ⟨by decide, by decide, by decide, by decide, by decide⟩

/-- Witness for `resign_strips_signature` at a concrete archive. -/
theorem resign_strips_signature_witness :
    isSigned signedArchive = true ∧
    (signedArchive.map (fun e => e.filename)).Nodup ∧
    ((Jarsigner.resign "jarsigner" "app.apk" "ks" "pw" "alias"
        (DiskFile.archive signedArchive) none).wrote = true ∧
     (Jarsigner.resign "jarsigner" "app.apk" "ks" "pw" "alias"
        (DiskFile.archive signedArchive) none).disk =
       DiskFile.archive (signedArchive.filter
         (fun e => !(strStartsWith e.filename "META-INF/"))) ∧
     (∀ e ∈ signedArchive.filter (fun e => !(strStartsWith e.filename "META-INF/")),
       strStartsWith e.filename "META-INF/" = false) ∧
     (∀ e ∈ signedArchive, strStartsWith e.filename "META-INF/" = false →
       e ∈ signedArchive.filter (fun e => !(strStartsWith e.filename "META-INF/")))) :=
  ⟨by decide, by decide,
   resign_strips_signature "jarsigner" "app.apk" "ks" "pw" "alias" signedArchive
     (by decide) (by decide)⟩

/-! ### Claim C2: failure containment of the resign rewrite -/

/-- Counterexample to C2 as stated: `resign` writes the replacement archive
back in place (`open(apk_path, 'wb')` truncates the file before `write`
runs), so a fault during the disk write itself — here after zero bytes
reached the disk — raises, yet leaves the file changed: it now holds raw
truncated data instead of the original archive. -/
theorem resign_write_fault_counterexample :
    (Jarsigner.resign "jarsigner" "app.apk" "ks" "pw" "alias"
        (DiskFile.archive signedArchive) (some (ResignFault.writeBack 0))).result =
      Except.error PyError.ioError ∧
    (Jarsigner.resign "jarsigner" "app.apk" "ks" "pw" "alias"
        (DiskFile.archive signedArchive) (some (ResignFault.writeBack 0))).disk =
      DiskFile.raw [] ∧
    DiskFile.raw [] ≠ DiskFile.archive signedArchive := by
  refine ⟨by decide, by decide, by decide⟩

/-- C2, amended: the replacement archive is built entirely in memory before
anything is written back, so any failure while opening or reading the
archive (including opening data that is not a well-formed archive) raises
and leaves the file on disk unchanged; but the write-back itself is an
in-place truncating write, so a fault during a disk write leaves the
written prefix of the replacement bytes rather than the original file. -/
theorem resign_fault_containment (j p ks pw al : String) (es : List ZipEntry)
    (b : List Nat) (fault : Option ResignFault) (k : Nat)
    (hr : readPhaseFaultFires es fault = true)
    (hs : isSigned es = true)
    (hk : k < (serializeZip (stripSignature es)).length) :
    ((Jarsigner.resign j p ks pw al (DiskFile.archive es) fault).disk =
        DiskFile.archive es ∧
     (Jarsigner.resign j p ks pw al (DiskFile.archive es) fault).result =
        Except.error PyError.ioError) ∧
    ((Jarsigner.resign j p ks pw al (DiskFile.raw b) fault).disk = DiskFile.raw b ∧
     (Jarsigner.resign j p ks pw al (DiskFile.raw b) fault).result =
        Except.error PyError.badZipFile) ∧
    ((Jarsigner.resign j p ks pw al (DiskFile.archive es)
        (some (ResignFault.writeBack k))).disk =
        DiskFile.raw ((serializeZip (stripSignature es)).take k) ∧
     (Jarsigner.resign j p ks pw al (DiskFile.archive es)
        (some (ResignFault.writeBack k))).result = Except.error PyError.ioError) := by
  refine ⟨⟨?_, ?_⟩, ⟨rfl, rfl⟩, ⟨?_, ?_⟩⟩
  · simp [Jarsigner.resign, hr]
  · simp [Jarsigner.resign, hr]
  · simp [Jarsigner.resign, readPhaseFaultFires, hs, writeFaultPos, hk]
  · simp [Jarsigner.resign, readPhaseFaultFires, hs, writeFaultPos, hk]

/-- Witness for `resign_fault_containment` at concrete inputs. -/
theorem resign_fault_containment_witness :
    readPhaseFaultFires signedArchive (some ResignFault.openArchive) = true ∧
    isSigned signedArchive = true ∧
    0 < (serializeZip (stripSignature signedArchive)).length ∧
    (((Jarsigner.resign "jarsigner" "app.apk" "ks" "pw" "alias"
        (DiskFile.archive signedArchive) (some ResignFault.openArchive)).disk =
        DiskFile.archive signedArchive ∧
      (Jarsigner.resign "jarsigner" "app.apk" "ks" "pw" "alias"
        (DiskFile.archive signedArchive) (some ResignFault.openArchive)).result =
        Except.error PyError.ioError) ∧
     ((Jarsigner.resign "jarsigner" "app.apk" "ks" "pw" "alias"
        (DiskFile.raw [7]) (some ResignFault.openArchive)).disk = DiskFile.raw [7] ∧
      (Jarsigner.resign "jarsigner" "app.apk" "ks" "pw" "alias"
        (DiskFile.raw [7]) (some ResignFault.openArchive)).result =
        Except.error PyError.badZipFile) ∧
     ((Jarsigner.resign "jarsigner" "app.apk" "ks" "pw" "alias"
        (DiskFile.archive signedArchive) (some (ResignFault.writeBack 0))).disk =
        DiskFile.raw ((serializeZip (stripSignature signedArchive)).take 0) ∧
      (Jarsigner.resign "jarsigner" "app.apk" "ks" "pw" "alias"
        (DiskFile.archive signedArchive) (some (ResignFault.writeBack 0))).result =
        Except.error PyError.ioError)) :=
  ⟨by decide, by decide, by decide,
   resign_fault_containment "jarsigner" "app.apk" "ks" "pw" "alias" signedArchive
     [7] (some ResignFault.openArchive) 0 (by decide) (by decide) (by decide)⟩

/-! ### Claim C6: resign on an unsigned archive -/

/-- C6: for an archive with zero entries under the `META-INF/` prefix,
`resign` performs no rewrite (the write-back step never executes and the
file content is unchanged before the signing step) and still delegates to
`sign` with the same four arguments, returning its result unchanged. -/
theorem resign_unsigned_no_rewrite_delegates (j p ks pw al : String)
    (es : List ZipEntry) (h : isSigned es = false) :
    Jarsigner.resign j p ks pw al (DiskFile.archive es) none =
      ResignOutcome.mk (Jarsigner.sign true j p ks pw al) (DiskFile.archive es) false :=
  resign_unsigned_eq j p ks pw al es h

/-- Witness for `resign_unsigned_no_rewrite_delegates` at a concrete
archive. -/
theorem resign_unsigned_no_rewrite_delegates_witness :
    isSigned unsignedArchive = false ∧
    Jarsigner.resign "jarsigner" "app.apk" "ks" "pw" "alias"
        (DiskFile.archive unsignedArchive) none =
      ResignOutcome.mk (Jarsigner.sign true "jarsigner" "app.apk" "ks" "pw" "alias")
        (DiskFile.archive unsignedArchive) false :=
  ⟨by decide,
   resign_unsigned_no_rewrite_delegates "jarsigner" "app.apk" "ks" "pw" "alias"
     unsignedArchive (by decide)⟩

/-! ### Claim C10: exact, case-sensitive prefix match -/

/-- C10: the signed-archive detection and the entry filtering use an exact,
case-sensitive prefix match on `META-INF/`: a name in different case
(`meta-inf/x`) or the bare `META-INF` without the trailing slash does not
match, so an archive whose entries all fail the exact test is considered
unsigned and left unrewritten. -/
theorem resign_prefix_match_exact_case_sensitive (j p ks pw al : String)
    (es : List ZipEntry)
    (h : ∀ e ∈ es, strStartsWith e.filename "META-INF/" = false) :
    strStartsWith "meta-inf/x" "META-INF/" = false ∧
    strStartsWith "META-INF" "META-INF/" = false ∧
    isSigned es = false ∧
    Jarsigner.resign j p ks pw al (DiskFile.archive es) none =
      ResignOutcome.mk (Jarsigner.sign true j p ks pw al) (DiskFile.archive es) false := by
  have hs : isSigned es = false := by
    simp only [isSigned, List.any_eq_false]
    intro e he
    simp [h e he]
  exact ⟨by decide, by decide, hs, resign_unsigned_eq j p ks pw al es hs⟩

/-- Witness for `resign_prefix_match_exact_case_sensitive` at a concrete
archive. -/
theorem resign_prefix_match_exact_case_sensitive_witness :
    (∀ e ∈ nearMissArchive, strStartsWith e.filename "META-INF/" = false) ∧
    (strStartsWith "meta-inf/x" "META-INF/" = false ∧
     strStartsWith "META-INF" "META-INF/" = false ∧
     isSigned nearMissArchive = false ∧
     Jarsigner.resign "jarsigner" "app.apk" "ks" "pw" "alias"
         (DiskFile.archive nearMissArchive) none =
       ResignOutcome.mk (Jarsigner.sign true "jarsigner" "app.apk" "ks" "pw" "alias")
         (DiskFile.archive nearMissArchive) false) :=
  ⟨by decide,
   resign_prefix_match_exact_case_sensitive "jarsigner" "app.apk" "ks" "pw" "alias"
     nearMissArchive (by decide)⟩

/-! ### Helper lemmas about the align filesystem model -/

/-- After filtering out a path, no entry with that path remains. -/
theorem any_filter_bne (l : List (String × List Nat)) (p : String) :
    (l.filter (fun r => r.1 != p)).any (fun r => r.1 == p) = false := by
  induction l with
  | nil => rfl
  | cons a t ih =>
    by_cases ha : a.1 = p
    · simp [List.filter_cons, ha, ih]
    · simp [List.filter_cons, List.any_cons, bne_iff_ne, beq_iff_eq, ha, ih]

/-- Removing a file indeed removes it. -/
theorem isfile_removeFile (fs : FileSys) (p : String) :
    (fs.removeFile p).isfile p = false :=
  any_filter_bne fs.files p

/-- Removing one path leaves the existence of any other path unchanged. -/
theorem any_beq_filter_ne (l : List (String × List Nat)) (p q : String)
    (h : q ≠ p) :
    (l.filter (fun r => r.1 != p)).any (fun r => r.1 == q) =
      l.any (fun r => r.1 == q) := by
  induction l with
  | nil => rfl
  | cons a t ih =>
    by_cases ha : a.1 = p
    · simp [List.filter_cons, List.any_cons, beq_iff_eq, ha, Ne.symm h, ih]
    · simp [List.filter_cons, List.any_cons, bne_iff_ne, ha, ih]

/-- Removing one path leaves the existence of any other path unchanged. -/
theorem isfile_removeFile_ne (fs : FileSys) (p q : String) (h : q ≠ p) :
    (fs.removeFile p).isfile q = fs.isfile q :=
  any_beq_filter_ne fs.files p q h

/-- Removing one path leaves the content of any other path unchanged. -/
theorem find?_filter_ne (l : List (String × List Nat)) (p q : String)
    (h : q ≠ p) :
    (l.filter (fun r => r.1 != p)).find? (fun r => r.1 == q) =
      l.find? (fun r => r.1 == q) := by
  induction l with
  | nil => rfl
  | cons a t ih =>
    by_cases ha : a.1 = p
    · simp [List.filter_cons, List.find?_cons, beq_iff_eq, ha, Ne.symm h, ih]
    · by_cases hq : a.1 = q
      · simp [List.filter_cons, List.find?_cons, bne_iff_ne, beq_iff_eq, ha, hq, h]
      · simp [List.filter_cons, List.find?_cons, bne_iff_ne, beq_iff_eq, ha, hq, ih]

/-- Removing one path leaves the content of any other path unchanged. -/
theorem readFile_removeFile_ne (fs : FileSys) (p q : String) (h : q ≠ p) :
    (fs.removeFile p).readFile q = fs.readFile q := by
  unfold FileSys.readFile
  rw [show (fs.removeFile p).files = fs.files.filter (fun r => r.1 != p) from rfl,
    find?_filter_ne fs.files p q h]

/-- Filtering out a path is idempotent. -/
theorem filter_bne_idem (l : List (String × List Nat)) (p : String) :
    (l.filter (fun r => r.1 != p)).filter (fun r => r.1 != p) =
      l.filter (fun r => r.1 != p) := by
  induction l with
  | nil => rfl
  | cons a t ih =>
    by_cases ha : a.1 = p
    · simp [List.filter_cons, ha, ih]
    · simp [List.filter_cons, bne_iff_ne, ha, ih]

/-- Writing a file after removing it is the same as overwriting it
directly. -/
theorem writeFile_removeFile_self (fs : FileSys) (p : String) (v : List Nat) :
    (fs.removeFile p).writeFile p v = fs.writeFile p v := by
  unfold FileSys.writeFile FileSys.removeFile
  rw [filter_bne_idem]

/-- The `finally` block leaves no file at the copy path, whatever the
state handed to it. -/
theorem finallyRemoveCopy_isfile (st : Except PyError String × FileSys)
    (cp : String) :
    ((finallyRemoveCopy st cp).2).isfile cp = false := by
  unfold finallyRemoveCopy
  cases hx : st.2.isfile cp with
  | false => simp [hx]
  | true => simp [hx, isfile_removeFile]

/-! ### Claim C5: align never leaks its temporary copy -/

/-- C5: for an existing archive path, `align` leaves no file at the derived
temporary copy path on any exit path of the operation — success, nonzero
tool exit, copy fault, or the same-file corner case — because the `finally`
block removes it whenever it exists. -/
theorem align_removes_temp_copy (fs : FileSys) (z p : String) (oc : AlignOutcome)
    (h : fs.isfile p = true) :
    ((Zipalign.align fs z p oc).2).isfile (alignCopyPath p) = false := by
  simp only [Zipalign.align, h, Bool.not_true, Bool.false_eq_true, if_false]
  exact finallyRemoveCopy_isfile _ _

/-- Witness for `align_removes_temp_copy` at concrete inputs. -/
theorem align_removes_temp_copy_witness :
    fsC5.isfile "d/a.apk" = true ∧
    ((Zipalign.align fsC5 "zipalign" "d/a.apk" AlignOutcome.toolFailure).2).isfile
      (alignCopyPath "d/a.apk") = false :=
  ⟨by decide,
   align_removes_temp_copy fsC5 "zipalign" "d/a.apk" AlignOutcome.toolFailure (by decide)⟩

/-! ### Claim C9: the derived temporary path and pre-existing files there -/

/-- C9: the temporary path is the deterministic function
`join(dirname(p), splitext(basename(p))[0]) + ".copy.apk"` of the input
path, and a pre-existing file at that derived path does not survive the
operation: the copy step silently overwrites it (the run is identical to
one started without it) and the `finally` block then deletes it. -/
theorem align_clobbers_preexisting_copy (fs : FileSys) (z p : String)
    (oc : AlignOutcome)
    (h1 : fs.isfile p = true) (h2 : fs.isfile (alignCopyPath p) = true)
    (h3 : alignCopyPath p ≠ p) :
    alignCopyPath p =
      pyJoin (pyDirname p) (pySplitextRoot (pyBasename p)) ++ ".copy.apk" ∧
    ((Zipalign.align fs z p oc).2).isfile (alignCopyPath p) = false ∧
    Zipalign.align fs z p oc =
      Zipalign.align (fs.removeFile (alignCopyPath p)) z p oc := by
  refine ⟨rfl, ?_, ?_⟩
  · simp only [Zipalign.align, h1, Bool.not_true, Bool.false_eq_true, if_false]
    exact finallyRemoveCopy_isfile _ _
  · have hp : (fs.removeFile (alignCopyPath p)).isfile p = fs.isfile p :=
      isfile_removeFile_ne fs (alignCopyPath p) p (fun hh => h3 hh.symm)
    simp only [Zipalign.align, h1, hp, Bool.not_true, Bool.false_eq_true, if_false,
      h3, ite_false, if_neg h3]
    cases oc with
    | copyFault =>
      unfold finallyRemoveCopy
      simp [h2, isfile_removeFile]
    | toolFailure =>
      rw [readFile_removeFile_ne fs (alignCopyPath p) p (fun hh => h3 hh.symm),
        writeFile_removeFile_self]
    | ok c outText =>
      rw [readFile_removeFile_ne fs (alignCopyPath p) p (fun hh => h3 hh.symm),
        writeFile_removeFile_self]

/-- Witness for `align_clobbers_preexisting_copy` at concrete inputs. -/
theorem align_clobbers_preexisting_copy_witness :
    fsC9.isfile "d/a.apk" = true ∧
    fsC9.isfile (alignCopyPath "d/a.apk") = true ∧
    alignCopyPath "d/a.apk" ≠ "d/a.apk" ∧
    (alignCopyPath "d/a.apk" =
      pyJoin (pyDirname "d/a.apk") (pySplitextRoot (pyBasename "d/a.apk")) ++ ".copy.apk" ∧
     ((Zipalign.align fsC9 "zipalign" "d/a.apk" (AlignOutcome.ok [3] "ok")).2).isfile
       (alignCopyPath "d/a.apk") = false ∧
     Zipalign.align fsC9 "zipalign" "d/a.apk" (AlignOutcome.ok [3] "ok") =
       Zipalign.align (fsC9.removeFile (alignCopyPath "d/a.apk")) "zipalign" "d/a.apk"
         (AlignOutcome.ok [3] "ok")) :=
  ⟨by decide, by decide, by decide,
   align_clobbers_preexisting_copy fsC9 "zipalign" "d/a.apk" (AlignOutcome.ok [3] "ok")
     (by decide) (by decide) (by decide)⟩
